import Mathlib

/-!
Shallow embedding of `HomoIndex.py`, a batch orthogroup lookup script.

The script loads a tab-separated orthogroup table (`Orthogroups.tsv`) for a
genus, queries one or many gene IDs by substring search over the non-ID
columns, writes a per-gene text report for each query, and accumulates a
summary table that is written at the end of the run when at least one query
matched.

The embedding models:
  * Python string primitives used by the script (`in` substring test,
    `str.strip`, `str.split(', ')`) as executable functions on `List Char`;
  * the loaded dataframe as a `Table` (header plus rows of string cells,
    missing cells read as `""`, mirroring `fillna('')`);
  * `query_gene` as a pure function returning the report lines and the
    optional summary record;
  * the filesystem state the script inspects (`./genus/` and its entries)
    as an `Env`, and `main` as a pure function `runMain : Env → Args → RunOut`
    recording exit code, stdout lines, created files and the summary file.
-/

namespace HomoIndex

/-- `chPre p s` : the char list `p` starts the char list `s`
(Python slice-equality used by substring search). -/
def chPre : List Char → List Char → Bool
  | [], _ => true
  | _ :: _, [] => false
  | a :: as, b :: bs => a == b && chPre as bs

/-- `chSub p s` : `p` occurs contiguously inside `s`;
this is Python's `p in s` on strings. -/
def chSub (p : List Char) : List Char → Bool
  | [] => chPre p []
  | b :: bs => chPre p (b :: bs) || chSub p bs

/-- Python's `pat in s` substring test on strings. -/
def pySubstr (pat s : String) : Bool := chSub pat.toList s.toList

/-- The whitespace characters removed by Python's `str.strip()`. -/
def pyIsSpace (c : Char) : Bool :=
  c == ' ' || c == '\t' || c == '\n' || c == '\r' ||
  c == Char.ofNat 11 || c == Char.ofNat 12

/-- Python's `s.strip()`: remove leading and trailing whitespace. -/
def pyStrip (s : String) : String :=
  String.mk (((s.toList.dropWhile pyIsSpace).reverse.dropWhile pyIsSpace).reverse)

/-- Worker for Python's `s.split(', ')`: scan left to right, cutting at each
non-overlapping occurrence of the two-character separator `", "`.
`acc` holds the current field reversed. -/
def splitCS : List Char → List Char → List (List Char)
  | acc, [] => [acc.reverse]
  | acc, ',' :: ' ' :: rest => acc.reverse :: splitCS [] rest
  | acc, c :: rest => splitCS (c :: acc) rest

/-- Python's `s.split(', ')`. -/
def pySplitCS (s : String) : List String :=
  (splitCS [] s.toList).map String.mk

/-- The orthogroup table as loaded by
`pd.read_csv(database, sep='\t', dtype=str).fillna('')`:
a header row (first column = orthogroup ID, remaining columns = species)
and data rows of string cells. -/
structure Table where
  header : List String
  rows : List (List String)
deriving Repr, DecidableEq

/-- Cell access; absent cells read as `""` (mirrors `fillna('')`). -/
def cellAt (r : List String) (i : Nat) : String := r.getD i ""

/-- The column indices of the species columns: every column except
the first (orthogroup-ID) column. -/
def speciesIdx (t : Table) : List Nat := (List.range t.header.length).drop 1

/-- One row of the mask
`df.apply(lambda row: any(gene_id in str(cell) for cell in row[1:]), axis=1)`:
the gene ID occurs as a substring of some cell outside the first column. -/
def rowMatches (t : Table) (g : String) (r : List String) : Bool :=
  (speciesIdx t).any (fun i => pySubstr g (cellAt r i))

/-- The per-species loop of `query_gene`: for each species column whose cell
is non-empty after stripping, the species name paired with the list of
stripped `", "`-separated gene tokens of that cell. -/
def speciesData (t : Table) (r : List String) : List (String × List String) :=
  (speciesIdx t).filterMap (fun i =>
    if pyStrip (cellAt r i) == "" then none
    else some (t.header.getD i "",
      (pySplitCS (pyStrip (cellAt r i))).map pyStrip))

/-- One logical line of a per-gene report file, one constructor per
`f.write` of `query_gene`. -/
inductive RLine where
  | totSpecies (n : Nat)
  | totOrthogroups (n : Nat)
  | blank
  | notFound (g : String)
  | belongs (g og : String)
  | homologHeader
  | speciesLine (sp : String) (genes : List String)
  | sep
deriving Repr, DecidableEq

/-- The summary record returned by `query_gene` on a hit. -/
structure QueryResult where
  gene_id : String
  orthogroup_id : String
  species_count : Nat
  gene_count : Nat
  species_list : String
deriving Repr, DecidableEq

/-- The two total lines (and following blank line) written at the top of
every per-gene report. -/
def reportHeader (t : Table) : List RLine :=
  [RLine.totSpecies (t.header.length - 1), RLine.totOrthogroups t.rows.length,
   RLine.blank]

/-- The summary record extracted from a matched row. -/
def mkResult (t : Table) (g : String) (r : List String) : QueryResult :=
  let sd := speciesData t r
  { gene_id := g
    orthogroup_id := cellAt r 0
    species_count := sd.length
    gene_count := (sd.map (fun p => p.2.length)).sum
    species_list := String.intercalate "; " (sd.map Prod.fst) }

/-- The report lines written after the header when a row matched. -/
def foundLines (t : Table) (g : String) (r : List String) : List RLine :=
  [RLine.belongs g (cellAt r 0), RLine.homologHeader, RLine.blank]
    ++ (speciesData t r).map (fun p => RLine.speciesLine p.1 p.2)
    ++ [RLine.blank, RLine.sep]

/-- `query_gene(database, gene_id, outdir)`: the report file's lines and the
optional summary record. The first matching row (`results.iloc[0]`) wins. -/
def query_gene (t : Table) (g : String) : List RLine × Option QueryResult :=
  match t.rows.find? (rowMatches t g) with
  | none => (reportHeader t ++ [RLine.notFound g], none)
  | some r => (reportHeader t ++ foundLines t g r, some (mkResult t g r))

/-- One entry of the `./genus/` directory: its name, whether it is a
subdirectory, and (for directories) whether it contains `Orthogroups.tsv`. -/
structure FEntry where
  name : String
  isDir : Bool
  hasTable : Bool
deriving Repr, DecidableEq

/-- The filesystem state the script inspects, plus the file contents it
reads: whether `./genus/` exists, its entries, the orthogroup table that
`pd.read_csv` would load, and the lines of the `--gene_list` file. -/
structure Env where
  genusRootExists : Bool
  entries : List FEntry
  table : Table
  geneListLines : List String
deriving Repr, DecidableEq

/-- The parsed command-line arguments (`argparse` defaults `--gene` and
`--gene_list` to `None`; `--outdir` defaults to `"results"`). -/
structure Args where
  genus : String
  gene : Option String
  gene_list : Option String
  outdir : String
deriving Repr, DecidableEq

/-- Python truthiness of an optional string: `None` and `""` are falsy. -/
def truthy : Option String → Bool
  | none => false
  | some s => s != ""

/-- `os.path.exists(os.path.join("genus", g))`: some entry of `./genus/`
(directory or not) carries the name `g`. -/
def genusPathExists (env : Env) (g : String) : Bool :=
  env.genusRootExists && env.entries.any (fun e => e.name == g)

/-- `os.path.exists(os.path.join("genus", g, "Orthogroups.tsv"))`:
a subdirectory named `g` contains the table file. -/
def tablePathExists (env : Env) (g : String) : Bool :=
  env.genusRootExists && env.entries.any (fun e => e.name == g && e.isDir && e.hasTable)

/-- The expected table path `os.path.join("genus", genus, "Orthogroups.tsv")`. -/
def dbPath (g : String) : String := "genus/" ++ g ++ "/Orthogroups.tsv"

/-- `list_available_genus()` when `./genus/` exists:
`sorted([d for d in os.listdir("genus") if os.path.isdir(...)])`. -/
def list_available_genus (env : Env) : List String :=
  ((env.entries.filter (fun e => e.isDir)).map (fun e => e.name)).mergeSort

/-- One line printed to stdout, one constructor per `print` of the script. -/
inductive OutLine where
  | errGenusNotFound (g : String)
  | availHeader
  | suggest (name : String)
  | errNoGenusRoot
  | errMissingFile (path : String)
  | makeSure
  | infoNotFound (g : String)
  | okWritten (g : String)
  | errNeedGene
  | okSummary
deriving Repr, DecidableEq

/-- One line of `summary.tsv` as produced by `DataFrame.to_csv`:
the header row followed by one row per accumulated record. -/
inductive SumLine where
  | headerRow
  | dataRow (q : QueryResult)
deriving Repr, DecidableEq

/-- The serialized summary table: header row plus one data row per record. -/
def summaryLines (rows : List QueryResult) : List SumLine :=
  SumLine.headerRow :: rows.map SumLine.dataRow

/-- Everything one run of `main` produces: the exit code, stdout, whether
`os.makedirs(outdir)` ran, the per-gene files written (name stem and
lines), and the summary file, when written. -/
structure RunOut where
  exitCode : Nat
  stdout : List OutLine
  madeOutdir : Bool
  geneFiles : List (String × List RLine)
  summaryFile : Option (List SumLine)
deriving Repr, DecidableEq

/-- The stdout line printed while processing one gene
(`[OK] Result written` or `[INFO] ... not found`). -/
def geneStdout (t : Table) (g : String) : OutLine :=
  match (query_gene t g).2 with
  | none => OutLine.infoNotFound g
  | some _ => OutLine.okWritten g

/-- The gene IDs actually queried from a gene-list file: each line is
stripped, and lines that are empty after stripping are skipped. -/
def strippedGenes (lines : List String) : List String :=
  (lines.map pyStrip).filter (fun s => s != "")

/-- The per-gene files written when querying the genes `gs` in order. -/
def geneFilesFor (t : Table) (gs : List String) : List (String × List RLine) :=
  gs.map (fun g => (g, (query_gene t g).1))

/-- The summary records accumulated when querying the genes `gs` in order
(`if result: summary_data.append(result)`). -/
def summaryRows (t : Table) (gs : List String) : List QueryResult :=
  gs.filterMap (fun g => (query_gene t g).2)

/-- `main()`: existence checks on the genus directory and table file,
then the single-gene or gene-list query loop, then the summary write. -/
def runMain (env : Env) (a : Args) : RunOut :=
  if !genusPathExists env a.genus then
    if !env.genusRootExists then
      { exitCode := 1
        stdout := [OutLine.errGenusNotFound a.genus, OutLine.availHeader,
                   OutLine.errNoGenusRoot]
        madeOutdir := false, geneFiles := [], summaryFile := none }
    else
      { exitCode := 1
        stdout := [OutLine.errGenusNotFound a.genus, OutLine.availHeader]
            ++ (list_available_genus env).map OutLine.suggest
        madeOutdir := false, geneFiles := [], summaryFile := none }
  else if !tablePathExists env a.genus then
    { exitCode := 1
      stdout := [OutLine.errMissingFile (dbPath a.genus), OutLine.makeSure]
      madeOutdir := false, geneFiles := [], summaryFile := none }
  else
    if truthy a.gene then
      let g := a.gene.getD ""
      let res := (query_gene env.table g).2
      { exitCode := 0
        stdout := [geneStdout env.table g]
            ++ (if res.isSome then [OutLine.okSummary] else [])
        madeOutdir := true
        geneFiles := [(g, (query_gene env.table g).1)]
        summaryFile := res.map (fun q => summaryLines [q]) }
    else if truthy a.gene_list then
      let gs := strippedGenes env.geneListLines
      let rows := summaryRows env.table gs
      { exitCode := 0
        stdout := gs.map (geneStdout env.table)
            ++ (if rows.isEmpty then [] else [OutLine.okSummary])
        madeOutdir := true
        geneFiles := geneFilesFor env.table gs
        summaryFile := if rows.isEmpty then none else some (summaryLines rows) }
    else
      { exitCode := 1
        stdout := [OutLine.errNeedGene]
        madeOutdir := true
        geneFiles := [], summaryFile := none }

/-! ## Spec-side definitions

These restate conditions the design document phrases in words, independently
of the operational definitions above, so that the theorems below compare the
two. -/

/-- Spec-side substring occurrence: `pat` occurs contiguously inside `s`. -/
def SubstrAt (pat s : String) : Prop :=
  ∃ t1 t2, s.toList = t1 ++ pat.toList ++ t2

/-- Spec-side row match: the gene ID occurs as a substring of a cell in some
column outside the first (orthogroup-ID) column. -/
def specRowMatch (t : Table) (g : String) (r : List String) : Prop :=
  ∃ i, 1 ≤ i ∧ i < t.header.length ∧ SubstrAt g (cellAt r i)

/-- Spec-side "found": some row has the gene ID as a substring of a cell
outside the first column. -/
def specFound (t : Table) (g : String) : Prop :=
  ∃ r ∈ t.rows, specRowMatch t g r

/-- `r` is the first row of the table (in table order) that matches `g`. -/
def FirstMatch (t : Table) (g : String) (r : List String) : Prop :=
  ∃ pre post, t.rows = pre ++ r :: post ∧ specRowMatch t g r ∧
    ∀ r2 ∈ pre, ¬ specRowMatch t g r2

/-- Spec-side hypothesis of C7: the gene ID is absent from every cell of the
table, the first column included. -/
def AbsentEverywhere (t : Table) (g : String) : Prop :=
  ∀ r ∈ t.rows, ∀ i < t.header.length, ¬ SubstrAt g (cellAt r i)

/-- The claim's count for C2: species columns whose cell in the row is
non-empty (no stripping). -/
def claimSpeciesCount (t : Table) (r : List String) : Nat :=
  ((speciesIdx t).filter (fun i => cellAt r i != "")).length

/-- The claim's gene total for C2: over the species columns whose cell in
the row is non-empty (no stripping), the total number of `", "`-separated
tokens of those cells. -/
def claimTokenTotal (t : Table) (r : List String) : Nat :=
  (((speciesIdx t).filter (fun i => cellAt r i != "")).map
    (fun i => (pySplitCS (cellAt r i)).length)).sum

/-- The amended count for C2: species columns whose cell is non-empty after
stripping leading/trailing whitespace. -/
def strippedSpeciesCount (t : Table) (r : List String) : Nat :=
  ((speciesIdx t).filter (fun i => pyStrip (cellAt r i) != "")).length

/-- The amended gene total for C2: over the species columns whose cell is
non-empty after stripping, the total number of `", "`-separated tokens of
the stripped cells. -/
def strippedTokenTotal (t : Table) (r : List String) : Nat :=
  (((speciesIdx t).filter (fun i => pyStrip (cellAt r i) != "")).map
    (fun i => (pySplitCS (pyStrip (cellAt r i))).length)).sum

/-! ## Concrete fixtures used by witnesses and counterexamples -/

/-- A two-row table whose second row holds `g1`. -/
def tblA : Table :=
  ⟨["OG", "SpA", "SpB"], [["OG0001", "x", ""], ["OG0002", "g1, g2", ""]]⟩

/-- The second (first matching for `g1`) row of `tblA`. -/
def rowA : List String := ["OG0002", "g1, g2", ""]

/-- The example table of the design document: header `OG/SpA/SpB`, one row
`OG0001 | "g1, g2" | ""`. -/
def tblEx : Table := ⟨["OG", "SpA", "SpB"], [["OG0001", "g1, g2", ""]]⟩

/-- The single row of `tblEx`. -/
def rowEx : List String := ["OG0001", "g1, g2", ""]

/-- A table whose matched row has a whitespace-only cell in column `SpB`. -/
def tblWS : Table := ⟨["OG", "SpA", "SpB"], [["OG0001", "g1", " "]]⟩

/-- The single row of `tblWS`. -/
def rowWS : List String := ["OG0001", "g1", " "]

/-- An environment where genus `Ara` exists with its table (`tblA`). -/
def envGood : Env :=
  { genusRootExists := true, entries := [⟨"Ara", true, true⟩], table := tblA,
    geneListLines := ["  g1 ", "", "zz"] }

/-- Like `envGood` but with a gene-list file whose stripped, non-blank
lines are all found in the table. -/
def envAll : Env :=
  { genusRootExists := true, entries := [⟨"Ara", true, true⟩], table := tblA,
    geneListLines := ["g1", "x"] }

/-- An environment where `genus/Foo` exists but is a plain file, while
`Bar` is an actual genus subdirectory. -/
def envFile : Env :=
  { genusRootExists := true,
    entries := [⟨"Bar", true, true⟩, ⟨"Foo", false, false⟩], table := tblA,
    geneListLines := [] }

/-- An environment where genus `Ara` exists but lacks `Orthogroups.tsv`. -/
def envNoTab : Env :=
  { genusRootExists := true, entries := [⟨"Ara", true, false⟩], table := tblA,
    geneListLines := [] }

/-- An environment with unsorted genus subdirectories and one plain file. -/
def envSug : Env :=
  { genusRootExists := true,
    entries := [⟨"b", true, true⟩, ⟨"a", true, false⟩, ⟨"f.txt", false, false⟩],
    table := tblA, geneListLines := [] }

/-- An environment where `./genus/` itself is absent. -/
def envNoRoot : Env :=
  { genusRootExists := false, entries := [], table := tblA, geneListLines := [] }

/-- Arguments: genus `Ara`, single gene `g1`. -/
def argsG1 : Args :=
  { genus := "Ara", gene := some "g1", gene_list := none, outdir := "results" }

/-- Arguments: genus `Ara`, single gene `zz` (absent from `tblA`). -/
def argsZZ : Args :=
  { genus := "Ara", gene := some "zz", gene_list := none, outdir := "results" }

/-- Arguments supplying both `--gene` and `--gene_list`. -/
def argsBoth : Args :=
  { genus := "Ara", gene := some "g1", gene_list := some "genes.txt",
    outdir := "results" }

/-- Arguments: genus `Ara`, gene-list run. -/
def argsList : Args :=
  { genus := "Ara", gene := none, gene_list := some "genes.txt",
    outdir := "results" }

/-- Arguments supplying neither `--gene` nor `--gene_list`. -/
def argsNone : Args :=
  { genus := "Ara", gene := none, gene_list := none, outdir := "results" }

/-- Arguments: genus `Foo` (a plain file in `envFile`), single gene. -/
def argsFoo : Args :=
  { genus := "Foo", gene := some "g1", gene_list := none, outdir := "results" }

/-- Arguments: genus `Zzz` (absent everywhere), single gene. -/
def argsZzz : Args :=
  { genus := "Zzz", gene := some "g1", gene_list := none, outdir := "results" }

/-! ## Bridge lemmas -/

lemma chPre_iff (p : List Char) : ∀ s, chPre p s = true ↔ ∃ t2, s = p ++ t2 := by
  induction p with
  | nil => intro s; simp [chPre]
  | cons a as ih =>
    intro s
    cases s with
    | nil =>
      simp [chPre]
    | cons b bs =>
      simp only [chPre, Bool.and_eq_true, beq_iff_eq, ih, List.cons_append,
        List.cons.injEq]
      constructor
      · rintro ⟨rfl, t2, rfl⟩
        exact ⟨t2, rfl, rfl⟩
      · rintro ⟨t2, rfl, rfl⟩
        exact ⟨rfl, t2, rfl⟩

lemma chSub_iff (p : List Char) : ∀ s, chSub p s = true ↔ ∃ t1 t2, s = t1 ++ p ++ t2 := by
  intro s
  induction s with
  | nil =>
    rw [chSub, chPre_iff]
    constructor
    · rintro ⟨t2, h⟩
      exact ⟨[], t2, h⟩
    · rintro ⟨t1, t2, h⟩
      refine ⟨t2, ?_⟩
      cases t1 with
      | nil => simpa using h
      | cons x xs => simp at h
  | cons b bs ih =>
    rw [chSub]
    simp only [Bool.or_eq_true, chPre_iff, ih]
    constructor
    · rintro (⟨t2, h⟩ | ⟨t1, t2, h⟩)
      · exact ⟨[], t2, by simpa using h⟩
      · exact ⟨b :: t1, t2, by simp [h]⟩
    · rintro ⟨t1, t2, h⟩
      cases t1 with
      | nil => exact Or.inl ⟨t2, by simpa using h⟩
      | cons x xs =>
        right
        simp only [List.cons_append, List.cons.injEq] at h
        exact ⟨xs, t2, h.2⟩

lemma pySubstr_iff (pat s : String) : pySubstr pat s = true ↔ SubstrAt pat s := by
  unfold pySubstr SubstrAt
  exact chSub_iff pat.toList s.toList

lemma mem_speciesIdx (t : Table) (i : Nat) :
    i ∈ speciesIdx t ↔ 1 ≤ i ∧ i < t.header.length := by
  unfold speciesIdx
  cases h : t.header.length with
  | zero => simp
  | succ m =>
    rw [List.range_succ_eq_map]
    simp only [List.drop_succ_cons, List.drop_zero, List.mem_map, List.mem_range]
    constructor
    · rintro ⟨j, hj, rfl⟩
      omega
    · rintro ⟨h1, h2⟩
      exact ⟨i - 1, by omega, by omega⟩

lemma rowMatches_iff (t : Table) (g : String) (r : List String) :
    rowMatches t g r = true ↔ specRowMatch t g r := by
  unfold rowMatches specRowMatch
  rw [List.any_eq_true]
  constructor
  · rintro ⟨i, hi, hsub⟩
    rw [mem_speciesIdx] at hi
    exact ⟨i, hi.1, hi.2, (pySubstr_iff g _).1 hsub⟩
  · rintro ⟨i, h1, h2, hs⟩
    exact ⟨i, (mem_speciesIdx t i).2 ⟨h1, h2⟩, (pySubstr_iff g _).2 hs⟩

lemma not_specRowMatch {t : Table} {g : String} {r : List String}
    (h : rowMatches t g r = false) : ¬ specRowMatch t g r := by
  intro hc
  rw [← rowMatches_iff] at hc
  rw [h] at hc
  exact Bool.false_ne_true hc

lemma opt_isSome_map {α β : Type} (f : α → β) (o : Option α) :
    (o.map f).isSome = o.isSome := by
  cases o <;> rfl

lemma query_gene_snd (t : Table) (g : String) :
    (query_gene t g).2 = (t.rows.find? (rowMatches t g)).map (mkResult t g) := by
  cases h : t.rows.find? (rowMatches t g) <;> simp [query_gene, h]

lemma query_gene_fst_none (t : Table) (g : String)
    (h : t.rows.find? (rowMatches t g) = none) :
    (query_gene t g).1 = reportHeader t ++ [RLine.notFound g] := by
  simp [query_gene, h]

lemma query_gene_fst_some (t : Table) (g : String) (r : List String)
    (h : t.rows.find? (rowMatches t g) = some r) :
    (query_gene t g).1 = reportHeader t ++ foundLines t g r := by
  simp [query_gene, h]

lemma find?_first {α : Type} (p : α → Bool) (pre post : List α) (r : α)
    (hr : p r = true) (hpre : ∀ x ∈ pre, p x = false) :
    (pre ++ r :: post).find? p = some r := by
  induction pre with
  | nil =>
    simpa using List.find?_cons_of_pos post hr
  | cons x xs ih =>
    have hx := hpre x (List.mem_cons_self x xs)
    rw [List.cons_append, List.find?_cons_of_neg _ (by simp [hx])]
    exact ih (fun y hy => hpre y (List.mem_cons_of_mem x hy))

lemma find?_of_firstMatch {t : Table} {g : String} {r : List String}
    (h : FirstMatch t g r) : t.rows.find? (rowMatches t g) = some r := by
  obtain ⟨pre, post, hrows, hr, hpre⟩ := h
  rw [hrows]
  exact find?_first _ pre post r ((rowMatches_iff t g r).2 hr)
    (fun x hx => by
      have := hpre x hx
      rw [← rowMatches_iff] at this
      exact Bool.not_eq_true _ ▸ Bool.of_not_eq_true this)

lemma not_SubstrAt {pat s : String} (h : pySubstr pat s = false) :
    ¬ SubstrAt pat s := by
  intro hc
  rw [← pySubstr_iff, h] at hc
  exact Bool.false_ne_true hc

lemma speciesData_eq (t : Table) (r : List String) :
    speciesData t r =
      ((speciesIdx t).filter (fun i => pyStrip (cellAt r i) != "")).map
        (fun i => (t.header.getD i "",
          (pySplitCS (pyStrip (cellAt r i))).map pyStrip)) := by
  unfold speciesData
  induction speciesIdx t with
  | nil => rfl
  | cons i is ih =>
    simp only [List.getD_eq_getElem?_getD, beq_iff_eq] at ih ⊢
    by_cases h : pyStrip (cellAt r i) = ""
    · simp [List.filterMap_cons, List.filter_cons, h, ih]
    · simp [List.filterMap_cons, List.filter_cons, h, ih]

lemma mkResult_species_count (t : Table) (g : String) (r : List String) :
    (mkResult t g r).species_count = strippedSpeciesCount t r := by
  show (speciesData t r).length = strippedSpeciesCount t r
  rw [speciesData_eq, List.length_map]
  rfl

lemma mkResult_gene_count (t : Table) (g : String) (r : List String) :
    (mkResult t g r).gene_count = strippedTokenTotal t r := by
  show ((speciesData t r).map (fun p => p.2.length)).sum = strippedTokenTotal t r
  rw [speciesData_eq, List.map_map]
  unfold strippedTokenTotal
  congr 1
  apply List.map_congr_left
  intro i _
  simp

lemma gene_id_of_query {t : Table} {g : String} {q : QueryResult}
    (h : (query_gene t g).2 = some q) : q.gene_id = g := by
  rw [query_gene_snd] at h
  cases hf : t.rows.find? (rowMatches t g) with
  | none => rw [hf] at h; simp at h
  | some r =>
    rw [hf] at h
    simp only [Option.map_some', Option.some.injEq] at h
    rw [← h]
    rfl

lemma summaryRows_all_found (t : Table) (gs : List String)
    (h : ∀ g ∈ gs, ((query_gene t g).2).isSome = true) :
    (summaryRows t gs).map QueryResult.gene_id = gs
    ∧ (summaryRows t gs).length = gs.length := by
  induction gs with
  | nil => exact ⟨rfl, rfl⟩
  | cons g gs ih =>
    have hg := h g (List.mem_cons_self g gs)
    obtain ⟨q, hq⟩ := Option.isSome_iff_exists.1 hg
    obtain ⟨ih1, ih2⟩ := ih (fun x hx => h x (List.mem_cons_of_mem g hx))
    unfold summaryRows at ih1 ih2 ⊢
    rw [List.filterMap_cons, hq]
    constructor
    · rw [List.map_cons, ih1, gene_id_of_query hq]
    · simp [ih2]

lemma summaryRows_ne_nil_iff (t : Table) (gs : List String) :
    summaryRows t gs ≠ [] ↔ ∃ g ∈ gs, ((query_gene t g).2).isSome = true := by
  unfold summaryRows
  rw [Ne, List.filterMap_eq_nil_iff]
  push_neg
  constructor
  · rintro ⟨g, hg, hne⟩
    exact ⟨g, hg, by rwa [Option.isSome_iff_ne_none]⟩
  · rintro ⟨g, hg, hs⟩
    exact ⟨g, hg, by rwa [← Option.isSome_iff_ne_none]⟩

lemma map_fst_geneFilesFor (t : Table) (gs : List String) :
    (geneFilesFor t gs).map Prod.fst = gs := by
  unfold geneFilesFor
  rw [List.map_map]
  simp [Function.comp_def]

lemma strippedGenes_append_blank (l : List String) (ws : String)
    (h : pyStrip ws = "") :
    strippedGenes (l ++ [ws]) = strippedGenes l := by
  unfold strippedGenes
  rw [List.map_append, List.filter_append]
  simp [h]

lemma runMain_noRoot (env : Env) (a : Args) (h : env.genusRootExists = false) :
    runMain env a =
      { exitCode := 1
        stdout := [OutLine.errGenusNotFound a.genus, OutLine.availHeader,
                   OutLine.errNoGenusRoot]
        madeOutdir := false, geneFiles := [], summaryFile := none } := by
  have h1 : genusPathExists env a.genus = false := by
    simp [genusPathExists, h]
  simp [runMain, h1, h]

lemma runMain_noGenus (env : Env) (a : Args)
    (hroot : env.genusRootExists = true)
    (h : genusPathExists env a.genus = false) :
    runMain env a =
      { exitCode := 1
        stdout := [OutLine.errGenusNotFound a.genus, OutLine.availHeader]
            ++ (list_available_genus env).map OutLine.suggest
        madeOutdir := false, geneFiles := [], summaryFile := none } := by
  simp [runMain, h, hroot]

lemma runMain_noTable (env : Env) (a : Args)
    (h1 : genusPathExists env a.genus = true)
    (h2 : tablePathExists env a.genus = false) :
    runMain env a =
      { exitCode := 1
        stdout := [OutLine.errMissingFile (dbPath a.genus), OutLine.makeSure]
        madeOutdir := false, geneFiles := [], summaryFile := none } := by
  simp [runMain, h1, h2]

lemma runMain_single (env : Env) (a : Args) (g : String)
    (h1 : genusPathExists env a.genus = true)
    (h2 : tablePathExists env a.genus = true)
    (hg : a.gene = some g) (hne : g ≠ "") :
    runMain env a =
      { exitCode := 0
        stdout := [geneStdout env.table g]
            ++ (if ((query_gene env.table g).2).isSome then [OutLine.okSummary]
                else [])
        madeOutdir := true
        geneFiles := [(g, (query_gene env.table g).1)]
        summaryFile := ((query_gene env.table g).2).map
            (fun q => summaryLines [q]) } := by
  simp [runMain, h1, h2, hg, truthy, hne]

lemma runMain_geneList (env : Env) (a : Args)
    (h1 : genusPathExists env a.genus = true)
    (h2 : tablePathExists env a.genus = true)
    (h3 : truthy a.gene = false)
    (h4 : truthy a.gene_list = true) :
    runMain env a =
      { exitCode := 0
        stdout := (strippedGenes env.geneListLines).map (geneStdout env.table)
            ++ (if (summaryRows env.table (strippedGenes env.geneListLines)).isEmpty
                then [] else [OutLine.okSummary])
        madeOutdir := true
        geneFiles := geneFilesFor env.table (strippedGenes env.geneListLines)
        summaryFile :=
          if (summaryRows env.table (strippedGenes env.geneListLines)).isEmpty
          then none
          else some (summaryLines
            (summaryRows env.table (strippedGenes env.geneListLines))) } := by
  simp [runMain, h1, h2, h3, h4]

lemma runMain_needGene (env : Env) (a : Args)
    (h1 : genusPathExists env a.genus = true)
    (h2 : tablePathExists env a.genus = true)
    (h3 : truthy a.gene = false)
    (h4 : truthy a.gene_list = false) :
    runMain env a =
      { exitCode := 1
        stdout := [OutLine.errNeedGene]
        madeOutdir := true
        geneFiles := [], summaryFile := none } := by
  simp [runMain, h1, h2, h3, h4]

/-! ## Claim theorems -/

/-- C1: the query reports a gene as found iff the gene ID occurs as a
substring of at least one cell outside the first (orthogroup-ID) column of
some row; and whenever `r` is the first matching row in table order, the
query result is computed from `r` alone, with the reported orthogroup ID
equal to the first cell of `r`. -/
theorem spec_C1 (t : Table) (g : String) :
    ((query_gene t g).2.isSome ↔ specFound t g)
    ∧ ∀ r, FirstMatch t g r →
        (query_gene t g).2 = some (mkResult t g r)
        ∧ (mkResult t g r).orthogroup_id = cellAt r 0 := by
  constructor
  · rw [query_gene_snd, opt_isSome_map]
    rw [List.find?_isSome]
    unfold specFound
    constructor
    · rintro ⟨r, hr, hm⟩
      exact ⟨r, hr, (rowMatches_iff t g r).1 hm⟩
    · rintro ⟨r, hr, hm⟩
      exact ⟨r, hr, (rowMatches_iff t g r).2 hm⟩
  · intro r hr
    refine ⟨?_, rfl⟩
    rw [query_gene_snd, find?_of_firstMatch hr]
    rfl

/-- Witness for C1 at a concrete two-row table: the first matching row for
`g1` is the second row, and its first cell is the reported orthogroup. -/
theorem spec_C1_witness :
    (query_gene tblA "g1").2 = some (mkResult tblA "g1" rowA)
    ∧ (mkResult tblA "g1" rowA).orthogroup_id = cellAt rowA 0 :=
  (spec_C1 tblA "g1").2 rowA
    ⟨[["OG0001", "x", ""]], [], rfl,
     ⟨1, le_refl 1, by decide, ⟨[], (", g2").toList, by decide⟩⟩,
     fun r2 hr2 => by
       have h2 : r2 = ["OG0001", "x", ""] := by simpa using hr2
       subst h2
       exact not_specRowMatch (by decide)⟩

/-- Counterexample for C2 as stated: in `tblWS`, querying `g1` matches the
single row, which has two non-empty species cells (`"g1"` and `" "`), yet
the reported Species_Count is 1 and Gene_Count is 1, because the code
strips each cell before testing emptiness; the claim's counts over the
non-empty cells are 2 and 2. -/
theorem spec_C2_cex :
    (query_gene tblWS "g1").2 = some (mkResult tblWS "g1" rowWS)
    ∧ (mkResult tblWS "g1" rowWS).species_count = 1
    ∧ (mkResult tblWS "g1" rowWS).gene_count = 1
    ∧ claimSpeciesCount tblWS rowWS = 2
    ∧ claimTokenTotal tblWS rowWS = 2
    ∧ cellAt rowWS 2 ≠ "" := by
  decide

/-- C2 amended: for every successful query, Species_Count equals the number
of species columns whose cell in the matched row is non-empty after
stripping leading/trailing whitespace, and Gene_Count equals the total
number of `", "`-separated tokens across those stripped cells; the concrete
example of the claim (header OG/SpA/SpB, row `OG0001 | "g1, g2" | ""`,
query `g1`) holds exactly as stated. -/
theorem spec_C2_amended :
    (∀ (t : Table) (g : String) (r : List String),
      t.rows.find? (rowMatches t g) = some r →
      (query_gene t g).2 = some (mkResult t g r)
      ∧ (mkResult t g r).species_count = strippedSpeciesCount t r
      ∧ (mkResult t g r).gene_count = strippedTokenTotal t r)
    ∧ (query_gene tblEx "g1").2 = some ⟨"g1", "OG0001", 1, 2, "SpA"⟩ := by
  constructor
  · intro t g r hf
    refine ⟨?_, mkResult_species_count t g r, mkResult_gene_count t g r⟩
    rw [query_gene_snd, hf]
    rfl
  · decide

/-- Witness for C2's amended theorem at the spec's example table. -/
theorem spec_C2_witness :
    (query_gene tblEx "g1").2 = some (mkResult tblEx "g1" rowEx)
    ∧ (mkResult tblEx "g1" rowEx).species_count = strippedSpeciesCount tblEx rowEx
    ∧ (mkResult tblEx "g1" rowEx).gene_count = strippedTokenTotal tblEx rowEx :=
  spec_C2_amended.1 tblEx "g1" rowEx (by decide)

/-- Counterexample for C4 as stated: with both `--gene` and `--gene_list`
supplied, the program does not print a diagnostic and exits with status 0
(the `--gene` branch runs). -/
theorem spec_C4_cex :
    argsBoth.gene = some "g1" ∧ argsBoth.gene_list = some "genes.txt"
    ∧ (runMain envGood argsBoth).exitCode = 0
    ∧ OutLine.errNeedGene ∉ (runMain envGood argsBoth).stdout := by
  decide

/-- C4 amended: if neither `--gene` nor `--gene_list` is supplied with a
non-empty value, the program prints a diagnostic and exits with a non-zero
status; if `--gene` is supplied (non-empty), the run is identical to one
without `--gene_list` — the latter is silently ignored, not rejected. -/
theorem spec_C4_amended (env : Env) (a : Args) :
    (truthy a.gene = false → truthy a.gene_list = false →
      (runMain env a).exitCode = 1 ∧ (runMain env a).stdout ≠ [])
    ∧ (truthy a.gene = true →
      runMain env a = runMain env { a with gene_list := none }) := by
  constructor
  · intro h3 h4
    by_cases h1 : genusPathExists env a.genus = true
    · by_cases h2 : tablePathExists env a.genus = true
      · rw [runMain_needGene env a h1 h2 h3 h4]
        exact ⟨rfl, by simp⟩
      · rw [runMain_noTable env a h1 (by simpa using h2)]
        exact ⟨rfl, by simp⟩
    · by_cases hr : env.genusRootExists = true
      · rw [runMain_noGenus env a hr (by simpa using h1)]
        exact ⟨rfl, by simp⟩
      · rw [runMain_noRoot env a (by simpa using hr)]
        exact ⟨rfl, by simp⟩
  · intro hg
    obtain ⟨g, hg', hne⟩ : ∃ g, a.gene = some g ∧ g ≠ "" := by
      cases hgg : a.gene with
      | none => rw [hgg] at hg; simp [truthy] at hg
      | some g =>
        rw [hgg] at hg
        exact ⟨g, rfl, by simpa [truthy] using hg⟩
    by_cases h1 : genusPathExists env a.genus = true
    · by_cases h2 : tablePathExists env a.genus = true
      · rw [runMain_single env a g h1 h2 hg' hne,
          runMain_single env { a with gene_list := none } g h1 h2 hg' hne]
      · rw [runMain_noTable env a h1 (by simpa using h2),
          runMain_noTable env { a with gene_list := none } h1 (by simpa using h2)]
    · by_cases hr : env.genusRootExists = true
      · rw [runMain_noGenus env a hr (by simpa using h1),
          runMain_noGenus env { a with gene_list := none } hr (by simpa using h1)]
      · rw [runMain_noRoot env a (by simpa using hr),
          runMain_noRoot env { a with gene_list := none } (by simpa using hr)]

/-- Witness for C4's amended theorem: the neither-supplied case errors, and
a run with both options supplied equals the same run without `--gene_list`. -/
theorem spec_C4_witness :
    ((runMain envGood argsNone).exitCode = 1
      ∧ (runMain envGood argsNone).stdout ≠ [])
    ∧ runMain envGood argsBoth = runMain envGood { argsBoth with gene_list := none } :=
  ⟨(spec_C4_amended envGood argsNone).1 rfl rfl,
   (spec_C4_amended envGood argsBoth).2 rfl⟩

/-- Counterexample for C5 as stated: genus `Foo` has no corresponding
directory under `./genus/` (the entry `Foo` is a plain file), and `Bar` is
an actual subdirectory, yet the program prints no suggestion at all — it
takes the missing-table path instead, because `os.path.exists` is true for
the non-directory entry. -/
theorem spec_C5_cex :
    (∀ e ∈ envFile.entries, ¬(e.name = "Foo" ∧ e.isDir = true))
    ∧ (⟨"Bar", true, true⟩ : FEntry) ∈ envFile.entries
    ∧ argsFoo.genus = "Foo"
    ∧ (runMain envFile argsFoo).exitCode = 1
    ∧ OutLine.suggest "Bar" ∉ (runMain envFile argsFoo).stdout := by
  decide

/-- C5 amended: for every genus name with no entry of any kind named after
it under `./genus/`, the program exits non-zero and prints every actual
subdirectory of `./genus/` as a suggestion; if `./genus/<genus>` exists but
no subdirectory of that name holds the table (e.g. the entry is a plain
file), the program instead exits non-zero naming the missing table path;
if `./genus/` itself is absent it exits non-zero with a fatal diagnostic. -/
theorem spec_C5_amended (env : Env) (a : Args) :
    (env.genusRootExists = true → genusPathExists env a.genus = false →
      (runMain env a).exitCode = 1
      ∧ (runMain env a).stdout =
          [OutLine.errGenusNotFound a.genus, OutLine.availHeader]
            ++ (list_available_genus env).map OutLine.suggest
      ∧ (list_available_genus env).Perm
          ((env.entries.filter (fun e => e.isDir)).map (fun e => e.name)))
    ∧ (env.genusRootExists = false →
      (runMain env a).exitCode = 1
      ∧ (runMain env a).stdout =
          [OutLine.errGenusNotFound a.genus, OutLine.availHeader,
           OutLine.errNoGenusRoot])
    ∧ (genusPathExists env a.genus = true →
       tablePathExists env a.genus = false →
      (runMain env a).exitCode = 1
      ∧ (runMain env a).stdout =
          [OutLine.errMissingFile (dbPath a.genus), OutLine.makeSure]) := by
  refine ⟨fun hroot h => ?_, fun hroot => ?_, fun h1 h2 => ?_⟩
  · rw [runMain_noGenus env a hroot h]
    exact ⟨rfl, rfl, List.mergeSort_perm _ _⟩
  · rw [runMain_noRoot env a hroot]
    exact ⟨rfl, rfl⟩
  · rw [runMain_noTable env a h1 h2]
    exact ⟨rfl, rfl⟩

/-- Witness for C5's amended theorem: a missing genus yields the sorted
suggestions, a missing `./genus/` yields the fatal diagnostic, and a
non-directory entry yields the missing-table error. -/
theorem spec_C5_witness :
    ((runMain envSug argsZzz).exitCode = 1
      ∧ (runMain envSug argsZzz).stdout =
          [OutLine.errGenusNotFound "Zzz", OutLine.availHeader]
            ++ (list_available_genus envSug).map OutLine.suggest
      ∧ (list_available_genus envSug).Perm
          ((envSug.entries.filter (fun e => e.isDir)).map (fun e => e.name)))
    ∧ ((runMain envNoRoot argsZzz).exitCode = 1
      ∧ (runMain envNoRoot argsZzz).stdout =
          [OutLine.errGenusNotFound "Zzz", OutLine.availHeader,
           OutLine.errNoGenusRoot])
    ∧ ((runMain envFile argsFoo).exitCode = 1
      ∧ (runMain envFile argsFoo).stdout =
          [OutLine.errMissingFile (dbPath "Foo"), OutLine.makeSure]) :=
  ⟨(spec_C5_amended envSug argsZzz).1 rfl (by decide),
   (spec_C5_amended envNoRoot argsZzz).2.1 rfl,
   (spec_C5_amended envFile argsFoo).2.2 (by decide) (by decide)⟩

/-- C6: for every genus whose directory exists under `./genus/` but whose
entries of that name lack `Orthogroups.tsv`, the program exits non-zero and
its error output names the expected path
`genus/<genus>/Orthogroups.tsv`. -/
theorem spec_C6 (env : Env) (a : Args)
    (hroot : env.genusRootExists = true)
    (hdir : ∃ e ∈ env.entries, e.name = a.genus ∧ e.isDir = true)
    (hnotab : ∀ e ∈ env.entries, e.name = a.genus → e.hasTable = false) :
    (runMain env a).exitCode = 1
    ∧ OutLine.errMissingFile (dbPath a.genus) ∈ (runMain env a).stdout
    ∧ dbPath a.genus = "genus/" ++ a.genus ++ "/Orthogroups.tsv" := by
  have h1 : genusPathExists env a.genus = true := by
    obtain ⟨e, he, hn, _⟩ := hdir
    unfold genusPathExists
    rw [hroot, Bool.true_and, List.any_eq_true]
    exact ⟨e, he, by simp [hn]⟩
  have h2 : tablePathExists env a.genus = false := by
    unfold tablePathExists
    rw [hroot, Bool.true_and]
    rw [List.any_eq_false]
    intro e he
    by_cases hn : e.name = a.genus
    · simp [hn, hnotab e he hn]
    · simp [hn]
  rw [runMain_noTable env a h1 h2]
  exact ⟨rfl, by simp, rfl⟩

/-- Witness for C6: genus `Ara` exists as a directory without the table. -/
theorem spec_C6_witness :
    (runMain envNoTab argsG1).exitCode = 1
    ∧ OutLine.errMissingFile (dbPath "Ara") ∈ (runMain envNoTab argsG1).stdout
    ∧ dbPath "Ara" = "genus/" ++ "Ara" ++ "/Orthogroups.tsv" :=
  spec_C6 envNoTab argsG1 rfl ⟨⟨"Ara", true, false⟩, by decide, rfl, rfl⟩
    (by decide)

/-- C7: every per-gene report begins with the total species count (columns
minus one) and the total orthogroup count (row count) regardless of match
outcome; and when the gene ID is absent from every cell, the report is just
those totals followed by the "not found" line, the gene contributes nothing
to the summary, and the run exits with status 0. -/
theorem spec_C7 :
    (∀ (t : Table) (g : String),
      (query_gene t g).1.take 2 =
        [RLine.totSpecies (t.header.length - 1),
         RLine.totOrthogroups t.rows.length])
    ∧ (∀ (env : Env) (a : Args) (g : String),
        genusPathExists env a.genus = true →
        tablePathExists env a.genus = true →
        a.gene = some g → g ≠ "" →
        AbsentEverywhere env.table g →
        (query_gene env.table g).1 = reportHeader env.table ++ [RLine.notFound g]
        ∧ (runMain env a).geneFiles =
            [(g, reportHeader env.table ++ [RLine.notFound g])]
        ∧ (runMain env a).summaryFile = none
        ∧ (runMain env a).exitCode = 0) := by
  constructor
  · intro t g
    cases hf : t.rows.find? (rowMatches t g) with
    | none => rw [query_gene_fst_none t g hf]; rfl
    | some r => rw [query_gene_fst_some t g r hf]; rfl
  · intro env a g h1 h2 hg hne habs
    have hnone : env.table.rows.find? (rowMatches env.table g) = none := by
      rw [List.find?_eq_none]
      intro r hr
      rw [rowMatches_iff]
      rintro ⟨i, _, hlt, hs⟩
      exact habs r hr i hlt hs
    have hq2 : (query_gene env.table g).2 = none := by
      rw [query_gene_snd, hnone]
      rfl
    have hq1 := query_gene_fst_none env.table g hnone
    rw [runMain_single env a g h1 h2 hg hne]
    refine ⟨hq1, by rw [hq1], by rw [hq2]; rfl, rfl⟩

/-- Witness for C7: querying the absent gene `zz` against `tblA`. -/
theorem spec_C7_witness :
    ((query_gene tblA "zz").1.take 2 =
      [RLine.totSpecies 2, RLine.totOrthogroups 2])
    ∧ (query_gene tblA "zz").1 = reportHeader tblA ++ [RLine.notFound "zz"]
    ∧ (runMain envGood argsZZ).geneFiles =
        [("zz", reportHeader tblA ++ [RLine.notFound "zz"])]
    ∧ (runMain envGood argsZZ).summaryFile = none
    ∧ (runMain envGood argsZZ).exitCode = 0 := by
  have habs : AbsentEverywhere tblA "zz" := by
    intro r hr i hi
    apply not_SubstrAt
    simp only [tblA, List.mem_cons, List.not_mem_nil, or_false] at hr
    have hi3 : i < 3 := hi
    rcases hr with rfl | rfl <;>
      · interval_cases i <;> decide
  have h := (spec_C7.2 envGood argsZZ "zz" (by decide) (by decide) rfl
    (by decide) habs)
  exact ⟨spec_C7.1 tblA "zz", h.1, h.2.1, h.2.2.1, h.2.2.2⟩

/-- C8: whenever the run fails because the genus path or the table file is
missing, nothing is created: the output directory is not made, no per-gene
file is written, and no summary file is written. -/
theorem spec_C8 (env : Env) (a : Args)
    (h : genusPathExists env a.genus = false
      ∨ tablePathExists env a.genus = false) :
    (runMain env a).exitCode = 1
    ∧ (runMain env a).madeOutdir = false
    ∧ (runMain env a).geneFiles = []
    ∧ (runMain env a).summaryFile = none := by
  by_cases h1 : genusPathExists env a.genus = true
  · have h2 : tablePathExists env a.genus = false := by
      rcases h with h | h
      · rw [h1] at h
        exact absurd h (by simp)
      · exact h
    rw [runMain_noTable env a h1 h2]
    exact ⟨rfl, rfl, rfl, rfl⟩
  · by_cases hr : env.genusRootExists = true
    · rw [runMain_noGenus env a hr (by simpa using h1)]
      exact ⟨rfl, rfl, rfl, rfl⟩
    · rw [runMain_noRoot env a (by simpa using hr)]
      exact ⟨rfl, rfl, rfl, rfl⟩

/-- Witness for C8: the missing-table failure creates nothing. -/
theorem spec_C8_witness :
    (runMain envNoTab argsG1).exitCode = 1
    ∧ (runMain envNoTab argsG1).madeOutdir = false
    ∧ (runMain envNoTab argsG1).geneFiles = []
    ∧ (runMain envNoTab argsG1).summaryFile = none :=
  spec_C8 envNoTab argsG1 (Or.inr (by decide))

/-- C3: in a gene-list run whose stripped, non-blank lines are distinct and
all found, the per-gene files are exactly one per input gene, in input
order, with distinct names; the summary file is written iff the list is
non-empty, and then consists of the header row plus exactly one data row
per gene, in input order. -/
theorem spec_C3 (env : Env) (a : Args)
    (h1 : genusPathExists env a.genus = true)
    (h2 : tablePathExists env a.genus = true)
    (h3 : truthy a.gene = false)
    (h4 : truthy a.gene_list = true)
    (hnd : (strippedGenes env.geneListLines).Nodup)
    (hfound : ∀ g ∈ strippedGenes env.geneListLines,
        ((query_gene env.table g).2).isSome = true) :
    (runMain env a).geneFiles.map Prod.fst = strippedGenes env.geneListLines
    ∧ (runMain env a).geneFiles.length = (strippedGenes env.geneListLines).length
    ∧ ((runMain env a).geneFiles.map Prod.fst).Nodup
    ∧ ((runMain env a).summaryFile.isSome
        ↔ strippedGenes env.geneListLines ≠ [])
    ∧ (strippedGenes env.geneListLines ≠ [] →
        (runMain env a).summaryFile =
          some (summaryLines
            (summaryRows env.table (strippedGenes env.geneListLines)))
        ∧ (summaryRows env.table (strippedGenes env.geneListLines)).map
            QueryResult.gene_id = strippedGenes env.geneListLines
        ∧ (summaryRows env.table (strippedGenes env.geneListLines)).length
            = (strippedGenes env.geneListLines).length) := by
  have hL := runMain_geneList env a h1 h2 h3 h4
  obtain ⟨hmap, hlen⟩ :=
    summaryRows_all_found env.table (strippedGenes env.geneListLines) hfound
  have hfiles1 : (runMain env a).geneFiles.map Prod.fst
      = strippedGenes env.geneListLines := by
    rw [hL]
    exact map_fst_geneFilesFor _ _
  have hfiles2 : (runMain env a).geneFiles.length
      = (strippedGenes env.geneListLines).length := by
    rw [hL]
    show (geneFilesFor _ _).length = _
    unfold geneFilesFor
    exact List.length_map _ _
  have hnd' : ((runMain env a).geneFiles.map Prod.fst).Nodup := by
    rw [hfiles1]
    exact hnd
  have hrows_nil : summaryRows env.table (strippedGenes env.geneListLines) = []
      ↔ strippedGenes env.geneListLines = [] := by
    constructor
    · intro h0
      rw [h0] at hlen
      exact List.length_eq_zero.1 hlen.symm
    · intro h0
      rw [h0]
      rfl
  by_cases hnil : strippedGenes env.geneListLines = []
  · have hre : summaryRows env.table (strippedGenes env.geneListLines) = [] :=
      hrows_nil.2 hnil
    have hsf : (runMain env a).summaryFile = none := by
      rw [hL]
      show (if (summaryRows env.table (strippedGenes env.geneListLines)).isEmpty
        then none else _) = none
      rw [hre]
      rfl
    refine ⟨hfiles1, hfiles2, hnd', ?_, fun hne => absurd hnil hne⟩
    rw [hsf]
    simp [hnil]
  · have hre : summaryRows env.table (strippedGenes env.geneListLines) ≠ [] :=
      fun h0 => hnil (hrows_nil.1 h0)
    have hie : (summaryRows env.table (strippedGenes env.geneListLines)).isEmpty
        = false := by
      cases h0 : summaryRows env.table (strippedGenes env.geneListLines) with
      | nil => exact absurd h0 hre
      | cons x xs => rfl
    have hsf : (runMain env a).summaryFile =
        some (summaryLines
          (summaryRows env.table (strippedGenes env.geneListLines))) := by
      rw [hL]
      show (if (summaryRows env.table (strippedGenes env.geneListLines)).isEmpty
        then none else some (summaryLines
          (summaryRows env.table (strippedGenes env.geneListLines)))) = _
      rw [hie]
      rfl
    refine ⟨hfiles1, hfiles2, hnd', ?_, fun _ => ⟨hsf, hmap, hlen⟩⟩
    rw [hsf]
    simp [hnil]

/-- Witness for C3: a gene-list run over `["g1", "x"]`, both found. -/
theorem spec_C3_witness :
    (runMain envAll argsList).geneFiles.map Prod.fst
      = strippedGenes envAll.geneListLines
    ∧ (runMain envAll argsList).geneFiles.length = 2
    ∧ (runMain envAll argsList).summaryFile =
        some (summaryLines
          (summaryRows envAll.table (strippedGenes envAll.geneListLines)))
    ∧ (summaryRows envAll.table (strippedGenes envAll.geneListLines)).map
        QueryResult.gene_id = strippedGenes envAll.geneListLines := by
  have h := spec_C3 envAll argsList (by decide) (by decide) (by decide)
    (by decide) (by decide) (by decide)
  have h5 := h.2.2.2.2 (by decide)
  exact ⟨h.1, h.2.1.trans (by decide), h5.1, h5.2.1⟩

/-- C9: in a gene-list run, the genes queried are exactly the lines of the
file stripped of surrounding whitespace, with the lines that are blank
after stripping skipped; appending a whitespace-only line to the file
changes nothing about the run. -/
theorem spec_C9 (env : Env) (a : Args)
    (h1 : genusPathExists env a.genus = true)
    (h2 : tablePathExists env a.genus = true)
    (h3 : truthy a.gene = false)
    (h4 : truthy a.gene_list = true) :
    (runMain env a).geneFiles =
      geneFilesFor env.table
        ((env.geneListLines.map pyStrip).filter (fun s => s != ""))
    ∧ (runMain env a).geneFiles.map Prod.fst =
        (env.geneListLines.map pyStrip).filter (fun s => s != "")
    ∧ (∀ ws, pyStrip ws = "" →
        runMain { env with geneListLines := env.geneListLines ++ [ws] } a
          = runMain env a) := by
  have hL := runMain_geneList env a h1 h2 h3 h4
  refine ⟨?_, ?_, ?_⟩
  · rw [hL]
    rfl
  · rw [hL]
    exact map_fst_geneFilesFor _ _
  · intro ws hws
    have hL2 := runMain_geneList
      { env with geneListLines := env.geneListLines ++ [ws] } a h1 h2 h3 h4
    rw [hL, hL2]
    simp only [strippedGenes_append_blank env.geneListLines ws hws]

/-- Witness for C9: the gene-list `["  g1 ", "", "zz"]` queries exactly
`g1` and `zz`, and appending a whitespace-only line is a no-op. -/
theorem spec_C9_witness :
    (runMain envGood argsList).geneFiles =
      geneFilesFor envGood.table
        ((envGood.geneListLines.map pyStrip).filter (fun s => s != ""))
    ∧ (runMain envGood argsList).geneFiles.map Prod.fst =
        (envGood.geneListLines.map pyStrip).filter (fun s => s != "")
    ∧ runMain { envGood with geneListLines := envGood.geneListLines ++ ["  "] }
        argsList = runMain envGood argsList := by
  have h := spec_C9 envGood argsList (by decide) (by decide) (by decide)
    (by decide)
  exact ⟨h.1, h.2.1, h.2.2 "  " (by decide)⟩

/-- C10: the genus suggestions printed when the genus path is missing are
exactly the names of the subdirectories of `./genus/` (non-directory
entries excluded), in sorted (lexicographic) order. -/
theorem spec_C10 (env : Env) (a : Args)
    (hroot : env.genusRootExists = true)
    (h : genusPathExists env a.genus = false) :
    (runMain env a).stdout =
      [OutLine.errGenusNotFound a.genus, OutLine.availHeader]
        ++ (list_available_genus env).map OutLine.suggest
    ∧ (list_available_genus env).Perm
        ((env.entries.filter (fun e => e.isDir)).map (fun e => e.name))
    ∧ List.Sorted (fun x y => x ≤ y) (list_available_genus env) := by
  refine ⟨?_, List.mergeSort_perm _ _, List.sorted_mergeSort' _⟩
  rw [runMain_noGenus env a hroot h]

/-- Witness for C10: the environment with subdirectories `b`, `a` and a
plain file `f.txt`. -/
theorem spec_C10_witness :
    (runMain envSug argsZzz).stdout =
      [OutLine.errGenusNotFound "Zzz", OutLine.availHeader]
        ++ (list_available_genus envSug).map OutLine.suggest
    ∧ (list_available_genus envSug).Perm
        ((envSug.entries.filter (fun e => e.isDir)).map (fun e => e.name))
    ∧ List.Sorted (fun x y => x ≤ y) (list_available_genus envSug) :=
  spec_C10 envSug argsZzz rfl (by decide)

end HomoIndex
